import Mathlib

/-!
Verification development for the IES telemetry pipeline
(`src/lab1/src/file_datasource.py`, `src/lab2/main.py`,
`src/lab4/app/usecases/data_processing.py`).

Python floats are embedded as `Rat` (only ordering and equality of the
stored numbers matter to the properties considered), `datetime` instants
as an abstract `Timestamp := Int`, and fallible Python code as
`Except`/`Option` values.  The database session is embedded as explicit
state passing over `DbState`; whether the single `db.execute` of a batch
insert succeeds is a boolean environment parameter `execOk`.
-/

namespace IES

/-- Abstract instant; stands for a parsed Python `datetime` value. -/
abbrev Timestamp := Int

/-- `class AccelerometerData(BaseModel)` of `src/lab2/main.py`. -/
structure AccelerometerData where
  x : Rat
  y : Rat
  z : Rat
deriving DecidableEq, Repr

/-- `class GpsData(BaseModel)` of `src/lab2/main.py`. -/
structure GpsData where
  latitude : Rat
  longitude : Rat
deriving DecidableEq, Repr

/-- `class AgentData(BaseModel)` of `src/lab2/main.py`, after validation:
the `timestamp` field holds a successfully parsed instant. -/
structure AgentData where
  accelerometer : AccelerometerData
  gps : GpsData
  timestamp : Timestamp
deriving DecidableEq, Repr

/-- `class ProcessedAgentData(BaseModel)` of `src/lab2/main.py`. -/
structure ProcessedAgentData where
  road_state : String
  agent_data : AgentData
deriving DecidableEq, Repr

/-- `class ProcessedAgentDataInDB(BaseModel)`: the flattened stored row of
the `processed_agent_data` table. -/
structure ProcessedAgentDataInDB where
  id : Nat
  road_state : String
  x : Rat
  y : Rat
  z : Rat
  latitude : Rat
  longitude : Rat
  timestamp : Timestamp
deriving DecidableEq, Repr

/-- `fastapi.HTTPException` as raised by the handlers: a status code and a
detail string. -/
structure HttpException where
  status_code : Nat
  detail : String
deriving DecidableEq, Repr

/-- The `processed_agent_data` table plus the id sequence of its integer
primary key: rows in insertion order, and the next id the database will
assign. -/
structure DbState where
  rows : List ProcessedAgentDataInDB
  next_id : Nat
deriving DecidableEq, Repr

/-- One element of the global `subscriptions : Set[WebSocket]`.  `sendOk`
is the environment's verdict for this connection: whether
`websocket.send_json` completes for it or raises (failure or timeout). -/
structure Subscriber where
  id : Nat
  sendOk : Bool
deriving DecidableEq, Repr

/-! ### JSON values and `json.dumps` (for the broadcast path) -/

/-- A JSON value, as handled by `json.dumps` / `websocket.send_json`. -/
inductive Json where
  | str (s : String)
  | num (q : Rat)
  | obj (fields : List (String × Json))
  | arr (elems : List Json)

/-- JSON string escaping of one character (quote and backslash; other
escapes are not exercised by the payloads considered). -/
def escapeChar (c : Char) : String :=
  if c = '"' ∨ c = '\\' then String.singleton '\\' ++ String.singleton c
  else String.singleton c

/-- JSON string escaping, character by character. -/
def escapeString (s : String) : String :=
  String.join (s.data.map escapeChar)

mutual

/-- `json.dumps`: serialize a JSON value to text. -/
def Json.dumps : Json → String
  | .str s => "\"" ++ escapeString s ++ "\""
  | .num q => toString q
  | .obj fields => "\x7b" ++ Json.dumpsObj fields ++ "\x7d"
  | .arr elems => "[" ++ Json.dumpsArr elems ++ "]"

/-- Comma-separated serialization of an object's fields. -/
def Json.dumpsObj : List (String × Json) → String
  | [] => ""
  | [(k, v)] => "\"" ++ escapeString k ++ "\": " ++ Json.dumps v
  | (k, v) :: rest => "\"" ++ escapeString k ++ "\": " ++ Json.dumps v ++ ", " ++ Json.dumpsObj rest

/-- Comma-separated serialization of an array's elements. -/
def Json.dumpsArr : List Json → String
  | [] => ""
  | [v] => Json.dumps v
  | v :: rest => Json.dumps v ++ ", " ++ Json.dumpsArr rest

end

/-! ### `send_data_to_subscribers` (src/lab2/main.py lines 124-126)

```python
async def send_data_to_subscribers(data):
    for websocket in subscriptions:
        await websocket.send_json(json.dumps(data))
```

The loop body is not guarded: the first `send_json` that raises aborts the
loop and the exception propagates to the caller; no subscriber is ever
removed here.  `websocket.send_json(x)` itself serializes its argument, so
the text put on the wire is `json.dumps` applied to the string
`json.dumps(data)`.  The embedding returns the frames delivered in
iteration order, whether an exception escaped, and the registry after the
call (which the function never mutates). -/

/-- The wire text `send_json(json.dumps(data))` produces: the payload is
serialized twice. -/
def wireFrame (data : Json) : String :=
  Json.dumps (Json.str (Json.dumps data))

/-- The `for websocket in subscriptions` loop: deliver until the first
subscriber whose send raises; the exception then propagates. -/
def sendLoop (frame : String) : List Subscriber → List (Nat × String) × Bool
  | [] => ([], false)
  | s :: rest =>
    if s.sendOk then
      let r := sendLoop frame rest
      ((s.id, frame) :: r.1, r.2)
    else
      ([], true)

/-- `send_data_to_subscribers(data)` over a snapshot `subs` of the
`subscriptions` set (Python set iteration order is unspecified; the list
fixes one order).  Result: (frames delivered as (subscriber id, wire
text), whether an exception escaped to the caller, the registry after the
call). -/
def send_data_to_subscribers (subs : List Subscriber) (data : Json) :
    List (Nat × String) × Bool × List Subscriber :=
  let r := sendLoop (wireFrame data) subs
  (r.1, r.2, subs)

/-! ### CRUD handlers (src/lab2/main.py) -/

/-- The flattened dict built for one item in `create_processed_agent_data`
(and the values clause of the update handler): road_state plus the
accelerometer, gps and timestamp fields, under the assigned id. -/
def flattenRecord (i : Nat) (item : ProcessedAgentData) : ProcessedAgentDataInDB :=
  { id := i
    road_state := item.road_state
    x := item.agent_data.accelerometer.x
    y := item.agent_data.accelerometer.y
    z := item.agent_data.accelerometer.z
    latitude := item.agent_data.gps.latitude
    longitude := item.agent_data.gps.longitude
    timestamp := item.agent_data.timestamp }

/-- Rows the committed batch insert adds: consecutive primary-key ids
starting at `i`, one flattened row per item, in batch order. -/
def assignIds (i : Nat) : List ProcessedAgentData → List ProcessedAgentDataInDB
  | [] => []
  | item :: rest => flattenRecord i item :: assignIds (i + 1) rest

/-- `POST /processed_agent_data/` (`create_processed_agent_data`,
src/lab2/main.py lines 131-163).  The handler builds the flattened dict
list (pure attribute access, cannot raise), then runs one
`insert(...).values(list)` with a single `db.execute` + `db.commit`;
`execOk` says whether that execute/commit succeeds.  On failure it raises
`HTTPException(500, "Error")` and the uncommitted transaction is rolled
back by `db.close()`, leaving the table unchanged.  The handler body
contains no call to `send_data_to_subscribers`, so the returned broadcast
list is empty on every path.  Result: (HTTP outcome, final table state,
frames broadcast). -/
def create_processed_agent_data (execOk : Bool) (_subs : List Subscriber)
    (db : DbState) (data : List ProcessedAgentData) :
    Except HttpException Unit × DbState × List (Nat × String) :=
  if execOk then
    (.ok (), ⟨db.rows ++ assignIds db.next_id data, db.next_id + data.length⟩, [])
  else
    (.error ⟨500, "Error"⟩, db, [])

/-- `select(processed_agent_data).where(c.id == i)` followed by
`fetchone()`: the first row with this id, if any. -/
def selectById (db : DbState) (i : Nat) : Option ProcessedAgentDataInDB :=
  db.rows.find? (fun row => row.id == i)

/-- `GET /processed_agent_data/{id}` (`read_processed_agent_data`,
src/lab2/main.py lines 167-179): executes the select and returns the
`fetchone()` result directly — `none` (Python `None`) when the id is
absent. -/
def read_processed_agent_data (db : DbState) (i : Nat) :
    Option ProcessedAgentDataInDB :=
  selectById db i

/-- `GET /processed_agent_data/` (`list_processed_agent_data`): all rows
in insertion order. -/
def list_processed_agent_data (db : DbState) : List ProcessedAgentDataInDB :=
  db.rows

/-- The `try` block of `delete_processed_agent_data` (src/lab2/main.py
lines 232-242): select the row; if absent, `raise HTTPException(400,
"Not found")`; otherwise delete the row, commit, and return the prior
value. -/
def deleteTryBody (db : DbState) (i : Nat) :
    Except HttpException (DbState × ProcessedAgentDataInDB) :=
  match selectById db i with
  | none => .error ⟨400, "Not found"⟩
  | some row => .ok (⟨db.rows.filter (fun r => !(r.id == i)), db.next_id⟩, row)

/-- `DELETE /processed_agent_data/{id}` (`delete_processed_agent_data`,
src/lab2/main.py lines 228-246).  The whole `try` block sits under
`except Exception: raise HTTPException(500, "Error")`; `HTTPException`
subclasses `Exception`, so the 400 "Not found" raised inside the body is
caught there and replaced by the 500. -/
def delete_processed_agent_data (db : DbState) (i : Nat) :
    Except HttpException (DbState × ProcessedAgentDataInDB) :=
  match deleteTryBody db i with
  | .ok v => .ok v
  | .error _ => .error ⟨500, "Error"⟩

/-! ### Request-boundary validation (pydantic on `AgentData.timestamp`) -/

/-- Request-shaped `AgentData` before validation: the timestamp is still
the raw string of the request body. -/
structure RawAgentData where
  accelerometer : AccelerometerData
  gps : GpsData
  timestamp : String
deriving DecidableEq, Repr

/-- Request-shaped `ProcessedAgentData` before validation. -/
structure RawProcessedAgentData where
  road_state : String
  agent_data : RawAgentData
deriving DecidableEq, Repr

/-- Pydantic validation of one `AgentData`: the `timestamp : datetime`
field parses ISO-8601 strings (`datetime.fromisoformat`, abstracted as the
parameter `parseIso`); a string that does not parse fails validation and
no `AgentData` object is constructed. -/
def AgentData.validate (parseIso : String → Option Timestamp)
    (raw : RawAgentData) : Option AgentData :=
  (parseIso raw.timestamp).map fun t => ⟨raw.accelerometer, raw.gps, t⟩

/-- Pydantic validation of the request body `List[ProcessedAgentData]`:
every item must validate. -/
def validateBatch (parseIso : String → Option Timestamp) :
    List RawProcessedAgentData → Option (List ProcessedAgentData)
  | [] => some []
  | raw :: rest =>
    match AgentData.validate parseIso raw.agent_data, validateBatch parseIso rest with
    | some a, some ds => some (⟨raw.road_state, a⟩ :: ds)
    | _, _ => none

/-- The full `POST /processed_agent_data/` boundary: FastAPI/pydantic
validate the body before the handler runs; any validation failure is
rejected with a 422 client error and the handler (hence the store) is
never reached. -/
def create_endpoint (parseIso : String → Option Timestamp) (execOk : Bool)
    (subs : List Subscriber) (db : DbState)
    (raw : List RawProcessedAgentData) :
    Except HttpException Unit × DbState × List (Nat × String) :=
  match validateBatch parseIso raw with
  | none => (.error ⟨422, "Unprocessable Entity"⟩, db, [])
  | some data => create_processed_agent_data execOk subs db data

/-! ### Classifier (src/lab4/app/usecases/data_processing.py) -/

/-- `process_agent_data`: `road_state = "straight"`, overwritten with
`"pit"` when `agent_data.accelerometer.y > 15`. -/
def process_agent_data (agent_data : AgentData) : ProcessedAgentData :=
  let road_state := if agent_data.accelerometer.y > 15 then "pit" else "straight"
  ⟨road_state, agent_data⟩

/-! ### FileDatasource (src/lab1/src/file_datasource.py)

CSV rows are embedded already parsed into their field types (the
`int(...)`/`float(...)` conversions of `read` are abstracted); a file's
content is its row list, the first row being the header that
`startReading` skips.  A stored `csv.reader` is embedded as the list of
its remaining rows. -/

/-- `domain.accelerometer.Accelerometer`. -/
structure Accelerometer where
  x : Int
  y : Int
  z : Int
deriving DecidableEq, Repr

/-- `domain.gps.Gps`. -/
structure Gps where
  latitude : Rat
  longitude : Rat
deriving DecidableEq, Repr

/-- `domain.parking.Parking`. -/
structure Parking where
  empty_count : Int
  gps : Gps
deriving DecidableEq, Repr

/-- `domain.aggregated_data.AggregatedData`. -/
structure AggregatedData where
  accelerometer : Accelerometer
  gps : Gps
  parking : Parking
  timestamp : Timestamp
  user_id : Nat
deriving DecidableEq, Repr

/-- One data row of accelerometer.csv: x, y, z. -/
abbrev AccRow := Int × Int × Int

/-- One data row of gps.csv: latitude, longitude. -/
abbrev GpsRow := Rat × Rat

/-- One data row of parking.csv: empty_count, latitude, longitude. -/
abbrev ParkRow := Int × Rat × Rat

/-- The three `self.*_data` fields of `FileDatasource`: `None` before
`startReading`, afterwards the csv reader over the remaining rows. -/
structure FileDatasource where
  accelerometer_data : Option (List AccRow)
  gps_data : Option (List GpsRow)
  parking_data : Option (List ParkRow)
deriving DecidableEq, Repr

/-- Outcome of `FileDatasource.read`.  `endOfStream` is the
`EndOfStream` outcome of the spec's telemetry-source interface; it is a
possible outcome of the interface, to be compared with what the code
does.  `sysExit` is `sys.exit()` — `SystemExit` terminating the process.
`typeError` is `next(None)` when a source was never started. -/
inductive ReadResult where
  | ok (d : AggregatedData) (fd : FileDatasource)
  | endOfStream
  | sysExit
  | typeError
deriving DecidableEq, Repr

/-- `FileDatasource.read` (src/lab1/src/file_datasource.py lines 28-44):
one `next` on each of the three readers in order; `StopIteration` from
any of them is caught and answered with `sys.exit()`.  Otherwise one
`AggregatedData` is built from the three aligned rows, with
`datetime.now()` (the parameter `now`) and `config.USER_ID` (the
parameter `user_id`). -/
def FileDatasource.read (now : Timestamp) (user_id : Nat)
    (fd : FileDatasource) : ReadResult :=
  match fd.accelerometer_data, fd.gps_data, fd.parking_data with
  | some accRows, some gpsRows, some parkRows =>
    match accRows, gpsRows, parkRows with
    | a :: accRest, g :: gpsRest, p :: parkRest =>
      .ok ⟨⟨a.1, a.2.1, a.2.2⟩, ⟨g.1, g.2⟩, ⟨p.1, ⟨p.2.1, p.2.2⟩⟩, now, user_id⟩
        ⟨some accRest, some gpsRest, some parkRest⟩
    | _, _, _ => .sysExit
  | _, _, _ => .typeError

/-- Outcome of `FileDatasource.startReading`. -/
inductive StartResult where
  | ok (fd : FileDatasource)
  | sysExit
  | stopIteration
deriving DecidableEq, Repr

/-- `FileDatasource.startReading` (lines 47-63): open each file in order
(a missing file raises `FileNotFoundError`, caught and answered with
`sys.exit()`), store a csv reader over it and skip the header row with
one `next` (on an empty file that `StopIteration` is not caught and
propagates).  The three file contents are environment parameters. -/
def FileDatasource.startReading (accFile : Option (List AccRow))
    (gpsFile : Option (List GpsRow)) (parkFile : Option (List ParkRow))
    (_fd : FileDatasource) : StartResult :=
  match accFile with
  | none => .sysExit
  | some accRows =>
    match accRows with
    | [] => .stopIteration
    | _ :: accRest =>
      match gpsFile with
      | none => .sysExit
      | some gpsRows =>
        match gpsRows with
        | [] => .stopIteration
        | _ :: gpsRest =>
          match parkFile with
          | none => .sysExit
          | some parkRows =>
            match parkRows with
            | [] => .stopIteration
            | _ :: parkRest => .ok ⟨some accRest, some gpsRest, some parkRest⟩

/-- Python exception raised by `stopReading`. -/
inductive PyError where
  | attributeError
deriving DecidableEq, Repr

/-- `reader.close()` for a `csv.reader` object: csv reader objects expose
no `close` attribute, so the attribute lookup raises `AttributeError`
(Python runtime semantics, not repository code). -/
def csvReaderClose (_rows : List α) : Except PyError Unit :=
  .error .attributeError

/-- `FileDatasource.stopReading` (lines 66-73): for each of the three
fields, `if self.<field>:` (None is falsy, a reader object is truthy)
then `self.<field>.close()`; the first raised `AttributeError`
propagates. -/
def FileDatasource.stopReading (fd : FileDatasource) : Except PyError Unit :=
  (match fd.accelerometer_data with
   | some rows => csvReaderClose rows
   | none => pure ()) >>= fun _ =>
  (match fd.gps_data with
   | some rows => csvReaderClose rows
   | none => pure ()) >>= fun _ =>
  (match fd.parking_data with
   | some rows => csvReaderClose rows
   | none => pure ())

/-! ### Concrete sample values (shared by witnesses and counterexamples) -/

/-- The spec's example agent data: accelerometer (1, 2, 3), gps (10, 20). -/
def sampleAgentData : AgentData := ⟨⟨1, 2, 3⟩, ⟨10, 20⟩, 0⟩

/-- The spec's example record: road_state "straight". -/
def sampleRecord : ProcessedAgentData := ⟨"straight", sampleAgentData⟩

/-- A request-shaped record whose timestamp string is malformed. -/
def sampleRaw : RawProcessedAgentData :=
  ⟨"straight", ⟨⟨1, 2, 3⟩, ⟨10, 20⟩, "not-a-timestamp"⟩⟩

/-- A subscriber whose sends succeed. -/
def okSubscriber : Subscriber := ⟨1, true⟩

/-- A subscriber whose send raises. -/
def failingSubscriber : Subscriber := ⟨0, false⟩

/-- A sample object payload, as a stored record would be broadcast. -/
def sampleJson : Json := Json.obj [("road_state", Json.str "straight")]

/-! ### Helper lemmas -/

/-- `find?` over an append whose first part has no match. -/
theorem find?_append_of_none {α : Type} (p : α → Bool) (l1 l2 : List α)
    (h : l1.find? p = none) : (l1 ++ l2).find? p = l2.find? p := by
  induction l1 with
  | nil => rfl
  | cons x xs ih =>
    cases hx : p x with
    | true => rw [List.find?_cons_of_pos _ hx] at h; cases h
    | false =>
      have hx2 : ¬ p x = true := by simp [hx]
      rw [List.cons_append, List.find?_cons_of_neg _ hx2]
      rw [List.find?_cons_of_neg _ hx2] at h
      exact ih h

/-- Closed form of the broadcast loop: deliveries stop at the first failing
subscriber and the raised flag is whether any subscriber fails. -/
theorem sendLoop_eq (frame : String) (subs : List Subscriber) :
    sendLoop frame subs =
      ((subs.takeWhile (fun s => s.sendOk)).map (fun s => (s.id, frame)),
       subs.any (fun s => !s.sendOk)) := by
  induction subs with
  | nil => rfl
  | cons s rest ih =>
    cases hs : s.sendOk with
    | true => simp [sendLoop, hs, ih, List.takeWhile_cons, List.any_cons]
    | false => simp [sendLoop, hs, List.takeWhile_cons, List.any_cons]

/-- Appending a quote character in front, at the level of character data. -/
theorem data_quote_append (t : String) : ("\"" ++ t).data = '"' :: t.data := by
  simp [String.data_append]

/-- The serialization of a JSON string value starts with a quote. -/
theorem dumps_str_head (s : String) :
    (Json.dumps (Json.str s)).data.head? = some '"' := by
  show (("\"" ++ (escapeString s ++ "\"")) : String).data.head? = some '"'
  rw [data_quote_append]
  rfl

/-- The serialization of a JSON object starts with an opening brace. -/
theorem dumps_obj_head (fields : List (String × Json)) :
    (Json.dumps (Json.obj fields)).data.head? = some '\x7b' := by
  show (("\x7b" ++ (Json.dumpsObj fields ++ "\x7d")) : String).data.head? = some '\x7b'
  rw [String.data_append]
  rfl

/-- A batch with an unparsable timestamp fails pydantic validation. -/
theorem validateBatch_eq_none (parseIso : String → Option Timestamp)
    (raw : List RawProcessedAgentData)
    (h : ∃ item ∈ raw, parseIso item.agent_data.timestamp = none) :
    validateBatch parseIso raw = none := by
  induction raw with
  | nil => rcases h with ⟨item, hmem, _⟩; cases hmem
  | cons r rest ih =>
    rcases h with ⟨item, hmem, hnone⟩
    rcases List.mem_cons.mp hmem with rfl | hmem
    · simp [validateBatch, AgentData.validate, hnone]
    · have hrest := ih ⟨item, hmem, hnone⟩
      cases hval : AgentData.validate parseIso r.agent_data <;>
        simp [validateBatch, hval, hrest]

/-- A startReading that returns `ok` yields a datasource whose three fields
all hold readers. -/
theorem startReading_ok_shape (accFile : Option (List AccRow))
    (gpsFile : Option (List GpsRow)) (parkFile : Option (List ParkRow))
    (fd fd2 : FileDatasource)
    (h : FileDatasource.startReading accFile gpsFile parkFile fd = .ok fd2) :
    ∃ a b c, fd2 = ⟨some a, some b, some c⟩ := by
  cases accFile with
  | none => simp [FileDatasource.startReading] at h
  | some accRows =>
    cases accRows with
    | nil => simp [FileDatasource.startReading] at h
    | cons a arest =>
      cases gpsFile with
      | none => simp [FileDatasource.startReading] at h
      | some gpsRows =>
        cases gpsRows with
        | nil => simp [FileDatasource.startReading] at h
        | cons g grest =>
          cases parkFile with
          | none => simp [FileDatasource.startReading] at h
          | some parkRows =>
            cases parkRows with
            | nil => simp [FileDatasource.startReading] at h
            | cons p prest =>
              simp [FileDatasource.startReading] at h
              exact ⟨arest, grest, prest, h.symm⟩

/-! ### Claim theorems -/

/-- C1: the ingestion handler persists the batch but never delivers any
stored record to any live subscriber — `send_data_to_subscribers` is never
invoked.  Evaluated at the failing input (one record, one live subscriber,
persistence succeeds): the record is stored yet the broadcast list is
empty.  The second conjunct: no execution of the handler ever broadcasts
anything. -/
theorem create_stores_but_never_broadcasts :
    (create_processed_agent_data true [okSubscriber] ⟨[], 1⟩ [sampleRecord] =
      (.ok (), ⟨[flattenRecord 1 sampleRecord], 2⟩, [])) ∧
    (∀ execOk subs db data,
      (create_processed_agent_data execOk subs db data).2.2 = []) := by
  refine ⟨rfl, ?_⟩
  intro execOk subs db data
  cases execOk <;> rfl

/-- C2 counterexample: with a failing subscriber registered ahead of a
healthy one, the delivery failure surfaces to the broadcast caller (the
claim says it never does), the healthy subscriber receives nothing (the
claim says delivery continues), and the failing subscriber is still in the
registry (the claim says it is removed). -/
theorem send_failure_surfaces_to_caller :
    send_data_to_subscribers [failingSubscriber, okSubscriber] (Json.str "a") =
      ([], true, [failingSubscriber, okSubscriber]) := rfl

/-- C2 amended: a delivery failure to one subscriber propagates to the
broadcast caller and aborts delivery to every subscriber after it in
iteration order; the failing subscriber is not removed from the registry
(an exception escapes exactly when some registered subscriber's send
fails). -/
theorem send_data_to_subscribers_behavior (subs : List Subscriber) (data : Json) :
    send_data_to_subscribers subs data =
      ((subs.takeWhile (fun s => s.sendOk)).map (fun s => (s.id, wireFrame data)),
       subs.any (fun s => !s.sendOk),
       subs) := by
  unfold send_data_to_subscribers
  rw [sendLoop_eq]

/-- C3: on an id absent from the store, the delete handler answers with the
500 "Error" server failure, not a distinct not-found outcome: the 400
"Not found" its `try` body raises is caught by the handler's own blanket
`except Exception` and replaced by the 500.  Evaluated on the empty store
at id 1. -/
theorem delete_absent_id_returns_500 :
    delete_processed_agent_data ⟨[], 1⟩ 1 = .error ⟨500, "Error"⟩ ∧
    deleteTryBody ⟨[], 1⟩ 1 = .error ⟨400, "Not found"⟩ := ⟨rfl, rfl⟩

/-- C4: batch insertion is atomic — when the single execute/commit of the
batch fails, the handler answers 500 and the store afterwards lists exactly
what it listed before: none of the batch's records was added. -/
theorem insert_batch_failure_atomic (subs : List Subscriber) (db : DbState)
    (data : List ProcessedAgentData) :
    create_processed_agent_data false subs db data =
      (.error ⟨500, "Error"⟩, db, []) ∧
    list_processed_agent_data (create_processed_agent_data false subs db data).2.1 =
      list_processed_agent_data db := ⟨rfl, rfl⟩

/-- C5: the classifier is total and pure, returns road_state "pit" exactly
when the accelerometer's vertical-axis reading y is strictly greater than
15, and "straight" exactly when y ≤ 15 (the boundary y = 15 resolves to
"straight"); the input agent data is passed through unchanged. -/
theorem process_agent_data_threshold (a : AgentData) :
    ((process_agent_data a).road_state = "pit" ↔ a.accelerometer.y > 15) ∧
    ((process_agent_data a).road_state = "straight" ↔ a.accelerometer.y ≤ 15) ∧
    (process_agent_data a).agent_data = a := by
  by_cases h : a.accelerometer.y > 15
  · exact ⟨by simp [process_agent_data, h],
      by simp [process_agent_data, h, h.not_le], rfl⟩
  · exact ⟨by simp [process_agent_data, h],
      by simp [process_agent_data, h, not_lt.mp h], rfl⟩

/-- C6: an ingestion request containing any record whose timestamp string
does not parse as ISO-8601 is rejected with the 422 client error before the
handler runs: no record object is constructed, the store is unchanged, and
nothing is broadcast. -/
theorem malformed_timestamp_rejected (parseIso : String → Option Timestamp)
    (execOk : Bool) (subs : List Subscriber) (db : DbState)
    (raw : List RawProcessedAgentData)
    (h : ∃ item ∈ raw, parseIso item.agent_data.timestamp = none) :
    create_endpoint parseIso execOk subs db raw =
      (.error ⟨422, "Unprocessable Entity"⟩, db, []) := by
  have hv := validateBatch_eq_none parseIso raw h
  simp [create_endpoint, hv]

/-- C6 witness: one malformed-timestamp record under a parser that rejects
its timestamp is turned away with the 422 error, the store untouched. -/
theorem malformed_timestamp_rejected_witness :
    (∃ item ∈ [sampleRaw],
      (fun _ : String => (none : Option Timestamp)) item.agent_data.timestamp = none) ∧
    create_endpoint (fun _ => none) true [okSubscriber] ⟨[], 1⟩ [sampleRaw] =
      (.error ⟨422, "Unprocessable Entity"⟩, ⟨[], 1⟩, []) :=
  ⟨⟨sampleRaw, List.mem_singleton_self _, rfl⟩,
    malformed_timestamp_rejected _ _ _ _ _
      ⟨sampleRaw, List.mem_singleton_self _, rfl⟩⟩

/-- C7: storing a record in a store whose ids are all below the next
assigned id and reading it back under that id yields the flattened
original — road_state, x, y, z, latitude, longitude and timestamp all
equal the corresponding fields of the stored record. -/
theorem store_read_roundtrip (subs : List Subscriber) (db : DbState)
    (r : ProcessedAgentData)
    (h : ∀ row ∈ db.rows, row.id < db.next_id) :
    ∃ stored,
      read_processed_agent_data
        (create_processed_agent_data true subs db [r]).2.1 db.next_id = some stored ∧
      stored.road_state = r.road_state ∧
      stored.x = r.agent_data.accelerometer.x ∧
      stored.y = r.agent_data.accelerometer.y ∧
      stored.z = r.agent_data.accelerometer.z ∧
      stored.latitude = r.agent_data.gps.latitude ∧
      stored.longitude = r.agent_data.gps.longitude ∧
      stored.timestamp = r.agent_data.timestamp := by
  refine ⟨flattenRecord db.next_id r, ?_, rfl, rfl, rfl, rfl, rfl, rfl, rfl⟩
  have hnone : db.rows.find? (fun row => row.id == db.next_id) = none := by
    rw [List.find?_eq_none]
    intro row hrow
    simp only [beq_iff_eq]
    exact Nat.ne_of_lt (h row hrow)
  show (db.rows ++ assignIds db.next_id [r]).find?
      (fun row => row.id == db.next_id) = some (flattenRecord db.next_id r)
  rw [find?_append_of_none _ _ _ hnone]
  simp [assignIds, List.find?_cons, flattenRecord]

/-- C7 witness: the round-trip at the empty store and the sample record. -/
theorem store_read_roundtrip_witness :
    (∀ row ∈ (⟨[], 1⟩ : DbState).rows, row.id < (⟨[], 1⟩ : DbState).next_id) ∧
    (∃ stored,
      read_processed_agent_data
        (create_processed_agent_data true [] ⟨[], 1⟩ [sampleRecord]).2.1 1 = some stored ∧
      stored.road_state = sampleRecord.road_state ∧
      stored.x = sampleRecord.agent_data.accelerometer.x ∧
      stored.y = sampleRecord.agent_data.accelerometer.y ∧
      stored.z = sampleRecord.agent_data.accelerometer.z ∧
      stored.latitude = sampleRecord.agent_data.gps.latitude ∧
      stored.longitude = sampleRecord.agent_data.gps.longitude ∧
      stored.timestamp = sampleRecord.agent_data.timestamp) :=
  ⟨by simp, store_read_roundtrip [] ⟨[], 1⟩ sampleRecord (by simp)⟩

/-- C8 counterexample: with the accelerometer source exhausted (and the
other two still holding rows), `read` terminates the process via
`sys.exit()`; it does not signal the EndOfStream outcome to its caller. -/
theorem read_exhausted_exits_process :
    FileDatasource.read 0 0 ⟨some [], some [(1, 2)], some [(1, 1, 2)]⟩ =
      ReadResult.sysExit ∧
    ReadResult.sysExit ≠ ReadResult.endOfStream := ⟨rfl, by decide⟩

/-- C8 amended: each successful call reads one aligned row from each of the
three started sources and produces one AggregatedData; when any source is
exhausted the call terminates the process via `sys.exit()` instead of
returning an EndOfStream outcome to the caller. -/
theorem read_aligned_or_exit :
    (∀ (now : Timestamp) (uid : Nat) (a : AccRow) ar (g : GpsRow) gr (p : ParkRow) pr,
      FileDatasource.read now uid ⟨some (a :: ar), some (g :: gr), some (p :: pr)⟩ =
        .ok ⟨⟨a.1, a.2.1, a.2.2⟩, ⟨g.1, g.2⟩, ⟨p.1, ⟨p.2.1, p.2.2⟩⟩, now, uid⟩
          ⟨some ar, some gr, some pr⟩) ∧
    (∀ (now : Timestamp) (uid : Nat) ar gr pr, (ar = [] ∨ gr = [] ∨ pr = []) →
      FileDatasource.read now uid ⟨some ar, some gr, some pr⟩ = .sysExit ∧
      FileDatasource.read now uid ⟨some ar, some gr, some pr⟩ ≠ .endOfStream) := by
  constructor
  · intro now uid a ar g gr p pr
    rfl
  · intro now uid ar gr pr h
    have hexit : FileDatasource.read now uid ⟨some ar, some gr, some pr⟩ = .sysExit := by
      rcases h with rfl | rfl | rfl
      · rfl
      · cases ar <;> rfl
      · cases ar <;> cases gr <;> rfl
    refine ⟨hexit, ?_⟩
    rw [hexit]
    decide

/-- C8 witness: the exhaustion branch of the amended statement at the
accelerometer-exhausted input. -/
theorem read_aligned_or_exit_witness :
    (([] : List AccRow) = [] ∨ ([(1, 2)] : List GpsRow) = [] ∨
      ([(1, 1, 2)] : List ParkRow) = []) ∧
    (FileDatasource.read 0 0 ⟨some [], some [(1, 2)], some [(1, 1, 2)]⟩ = .sysExit ∧
     FileDatasource.read 0 0 ⟨some [], some [(1, 2)], some [(1, 1, 2)]⟩ ≠ .endOfStream) :=
  ⟨Or.inl rfl, read_aligned_or_exit.2 0 0 [] [(1, 2)] [(1, 1, 2)] (Or.inl rfl)⟩

/-- C9: on every datasource produced by a successful `startReading`,
`stopReading` raises `AttributeError` (the stored csv readers have no
`close` attribute); and `stopReading` returns normally exactly when all
three data fields are still `None`. -/
theorem stopReading_attribute_error :
    (∀ accFile gpsFile parkFile fd fd2,
      FileDatasource.startReading accFile gpsFile parkFile fd = .ok fd2 →
      fd2.stopReading = .error .attributeError) ∧
    (∀ fd : FileDatasource,
      fd.stopReading = .ok () ↔
        fd.accelerometer_data = none ∧ fd.gps_data = none ∧
        fd.parking_data = none) := by
  constructor
  · intro accFile gpsFile parkFile fd fd2 h
    obtain ⟨a, b, c, rfl⟩ := startReading_ok_shape accFile gpsFile parkFile fd fd2 h
    rfl
  · intro fd
    rcases fd with ⟨acc, gps, park⟩
    cases acc <;> cases gps <;> cases park <;>
      simp [FileDatasource.stopReading, csvReaderClose, Bind.bind, Except.bind,
        pure, Except.pure]

/-- C9 witness: a concrete successful startReading (each file holding a
header row and one data row) followed by the AttributeError of
stopReading. -/
theorem stopReading_attribute_error_witness :
    (FileDatasource.startReading (some [(0, 0, 0), (1, 2, 3)])
        (some [(0, 0), (1, 2)]) (some [(0, 0, 0), (1, 1, 2)])
        ⟨none, none, none⟩ = .ok ⟨some [(1, 2, 3)], some [(1, 2)], some [(1, 1, 2)]⟩) ∧
    FileDatasource.stopReading ⟨some [(1, 2, 3)], some [(1, 2)], some [(1, 1, 2)]⟩ =
      .error .attributeError :=
  ⟨rfl, stopReading_attribute_error.1 (some [(0, 0, 0), (1, 2, 3)])
    (some [(0, 0), (1, 2)]) (some [(0, 0, 0), (1, 1, 2)]) ⟨none, none, none⟩
    ⟨some [(1, 2, 3)], some [(1, 2)], some [(1, 1, 2)]⟩ rfl⟩

/-- C10: every frame the broadcast delivers to a registered subscriber is
the payload JSON-encoded twice — the wire text is a JSON string literal
(it starts with a quote) containing the escaped serialization of the
payload, and for an object payload it differs from the payload's own
serialization. -/
theorem broadcast_double_json_encoding (subs : List Subscriber) (data : Json)
    (p : Nat × String) (hp : p ∈ (send_data_to_subscribers subs data).1) :
    p.2 = Json.dumps (Json.str (Json.dumps data)) ∧
    p.2.data.head? = some '"' ∧
    (∀ fields, data = Json.obj fields → p.2 ≠ Json.dumps data) := by
  have hframe : p.2 = wireFrame data := by
    rw [send_data_to_subscribers_behavior] at hp
    obtain ⟨s, _, hs⟩ := List.mem_map.mp hp
    rw [← hs]
  refine ⟨hframe, ?_, ?_⟩
  · rw [hframe]
    exact dumps_str_head (Json.dumps data)
  · intro fields hfields hcontra
    have h1 : p.2.data.head? = some '"' := by
      rw [hframe]; exact dumps_str_head (Json.dumps data)
    have h2 : p.2.data.head? = some '\x7b' := by
      rw [hcontra, hfields]; exact dumps_obj_head fields
    rw [h1] at h2
    cases h2

/-- C10 witness: the healthy subscriber receives the doubly-encoded sample
object payload. -/
theorem broadcast_double_json_encoding_witness :
    ((1, wireFrame sampleJson) ∈
      (send_data_to_subscribers [okSubscriber] sampleJson).1) ∧
    ((1, wireFrame sampleJson).2 = Json.dumps (Json.str (Json.dumps sampleJson)) ∧
     (1, wireFrame sampleJson).2.data.head? = some '"' ∧
     (∀ fields, sampleJson = Json.obj fields →
       (1, wireFrame sampleJson).2 ≠ Json.dumps sampleJson)) :=
  ⟨List.mem_singleton_self _,
    broadcast_double_json_encoding [okSubscriber] sampleJson _
      (List.mem_singleton_self _)⟩

end IES
